import Mathlib

/-!
A shallow embedding of `src/index.js` of sinewaveai/node-api.

The repository is a small Express relay with four endpoints backed by three
external providers (a secret store, an embedding service plus vector index,
and a mail transport).  This file embeds the request handlers and the adapter
functions of `src/index.js` as executable Lean definitions and proves the
behavioural properties claimed for them.

Modelling conventions:
* External providers are oracles: records of pure functions returning
  `Except JsError _`, with `.error` standing for a rejected provider call
  (a thrown JS exception at the `await`).
* A JS function that can throw is embedded with result type `Except JsError _`;
  a `try/catch` in the source becomes a `match` on that result.  An HTTP
  handler whose embedding returns `.error e` models a request that ends in an
  unhandled fault (Express 4 does not catch exceptions of `async` handlers).
* The calls a handler makes to external providers are returned alongside its
  result as a `List ExtCall` trace, so "no provider call is attempted" is the
  statement that the trace is `[]`.
* Node `Buffer`s are `List Nat` (byte values); `Buffer.from(s, 'utf-8')` and
  `buf.toString('utf-8')` are the UTF-8 encoder/decoder defined below.
* `JSON.stringify` / `JSON.parse` are embedded as an executable serializer and
  parser over a `JsonValue` type; JS numbers are kept as exact decimal
  mantissa/exponent pairs (the claims under study never depend on binary
  floating-point rounding).
* Missing request fields (`undefined` after destructuring) are `Option.none`,
  and JS truthiness tests are the `jsTruthy*` functions.
-/

/-- A thrown JS exception, as far as this model distinguishes them. -/
inductive JsError where
  /-- The `ReferenceError: <ident> is not defined` — an identifier not in scope. -/
  | referenceError (ident : String)
  /-- The `TypeError`, e.g. reading a property of `null`/`undefined`. -/
  | typeError (msg : String)
  /-- A rejected external-provider call (secret store, OpenAI, Pinecone, mail). -/
  | providerError (msg : String)
  /-- A Node filesystem error, e.g. `ENOENT` from `fs.readFileSync`. -/
  | nodeError (msg : String)
  /-- The `SyntaxError` thrown by `JSON.parse`. -/
  | syntaxError (msg : String)
deriving DecidableEq, Repr

/-- The `error.toString()` on a `JsError`, used by the `/send_email` catch branch. -/
def jsErrorToString : JsError → String
  | .referenceError ident => "ReferenceError: " ++ ident ++ " is not defined"
  | .typeError msg => "TypeError: " ++ msg
  | .providerError msg => "Error: " ++ msg
  | .nodeError msg => "Error: " ++ msg
  | .syntaxError msg => "SyntaxError: " ++ msg

/-- A JS value produced by `JSON.parse` (and consumed by `res.json`).  Numbers
are exact decimal `mantissa × 10 ^ exponent10` pairs; the claims never depend
on double rounding. -/
inductive JsonValue where
  | jnull
  | jbool (b : Bool)
  | jnum (mantissa : Int) (exponent10 : Int)
  | jstr (s : String)
  | jarr (items : List JsonValue)
  | jobj (fields : List (String × JsonValue))

/-- JS truthiness of a JSON value: `null`, `false`, `0` and `""` are falsy;
every object and array is truthy. -/
def jsTruthy : JsonValue → Bool
  | .jnull => false
  | .jbool b => b
  | .jnum mantissa _ => mantissa != 0
  | .jstr s => !s.isEmpty
  | .jarr _ => true
  | .jobj _ => true

/-- JS truthiness of a possibly-`undefined`/`null` JSON value. -/
def jsTruthyOpt : Option JsonValue → Bool
  | none => false
  | some v => jsTruthy v

/-- JS truthiness of a possibly-missing string field (`undefined` or a string). -/
def jsTruthyStr : Option String → Bool
  | none => false
  | some s => !s.isEmpty

/-- A template-literal interpolation `${x}` of a possibly-`undefined` value. -/
def jsTemplate : Option String → String
  | none => "undefined"
  | some s => s

/-- Property read `obj[key]` as JS performs it on a `JsonValue`: `none` is
`undefined`; reading a property of `null` throws a `TypeError`.  On objects the
last binding of a duplicated key wins, as after `JSON.parse`. -/
def jsIndex : JsonValue → String → Except JsError (Option JsonValue)
  | .jnull, key => .error (.typeError ("Cannot read properties of null (reading '" ++ key ++ "')"))
  | .jobj fields, key =>
      match fields.reverse.find? (fun kv => kv.1 == key) with
      | some kv => .ok (some kv.2)
      | none => .ok none
  | _, _ => .ok none

/-- JS `a || b` after an `Option`-valued property read: `undefined` and falsy
values fall through to the default. -/
def jsOrElse (v : Option JsonValue) (dflt : JsonValue) : JsonValue :=
  match v with
  | some x => if jsTruthy x then x else dflt
  | none => dflt

/-- An HTTP response produced by a handler: `res.status(n).json v` / `res.json v`
(status 200) or `res.send` of plain text. -/
inductive HttpResponse where
  | json (status : Nat) (body : JsonValue)
  | text (status : Nat) (body : String)

/-- One call to an external provider, recorded in a handler's trace. -/
inductive ExtCall where
  /-- The `client.createSecret{parent, secretId, ...}` -/
  | secretCreate (parent : String) (secretId : Option String)
  /-- The `client.addSecretVersion` with the payload bytes. -/
  | secretAddVersion (parent : String) (data : List Nat)
  /-- The `client.accessSecretVersion{name}` -/
  | secretAccess (name : String)
  /-- The `openai.embeddings.create{input, model}` -/
  | embedCreate (input : List String) (model : String)
  /-- The `index.query{vector, topK, includeMetadata: true}` -/
  | indexQuery (topK : Nat)

/-! ## `Buffer.from(s, 'utf-8')` and `buf.toString('utf-8')`: UTF-8 bytes -/

/-- The UTF-8 encoding of one Unicode scalar value, as a byte list. -/
def utf8Bytes (c : Char) : List Nat :=
  let v := c.toNat
  if v < 0x80 then [v]
  else if v < 0x800 then [0xC0 + v / 0x40, 0x80 + v % 0x40]
  else if v < 0x10000 then [0xE0 + v / 0x1000, 0x80 + v / 0x40 % 0x40, 0x80 + v % 0x40]
  else [0xF0 + v / 0x40000, 0x80 + v / 0x1000 % 0x40, 0x80 + v / 0x40 % 0x40, 0x80 + v % 0x40]

/-- The `Buffer.from(s, 'utf-8')`: the byte contents of the buffer. -/
def bufferFromUtf8 (s : String) : List Nat := s.data.flatMap utf8Bytes

/-- U+FFFD, emitted by Node for ill-formed byte sequences when decoding. -/
def replacementChar : Char := Char.ofNat 0xFFFD

/-- The scalar value `n` as a `Char`, or U+FFFD when `n` is no valid scalar
(surrogate range); used by the decoder below. -/
def scalarOrReplacement (n : Nat) : Char :=
  if n.isValidChar then Char.ofNat n else replacementChar

/-- The character decoded from a two-byte sequence with lead byte `b` and the
(possibly missing) continuation byte `ob1`: the encoded scalar when the
continuation is well-formed, U+FFFD otherwise. -/
def utf8Seq2 (b : Nat) (ob1 : Option Nat) : Char :=
  match ob1 with
  | some b1 =>
    if 0x80 ≤ b1 ∧ b1 < 0xC0 then scalarOrReplacement ((b - 0xC0) * 0x40 + (b1 - 0x80))
    else replacementChar
  | none => replacementChar

/-- Three-byte analogue of `utf8Seq2`, rejecting overlong encodings. -/
def utf8Seq3 (b : Nat) (ob1 ob2 : Option Nat) : Char :=
  match ob1, ob2 with
  | some b1, some b2 =>
    if (0x80 ≤ b1 ∧ b1 < 0xC0) ∧ (0x80 ≤ b2 ∧ b2 < 0xC0) then
      (if 0x800 ≤ (b - 0xE0) * 0x1000 + (b1 - 0x80) * 0x40 + (b2 - 0x80) then
         scalarOrReplacement ((b - 0xE0) * 0x1000 + (b1 - 0x80) * 0x40 + (b2 - 0x80))
       else replacementChar)
    else replacementChar
  | _, _ => replacementChar

/-- Four-byte analogue of `utf8Seq2`, rejecting overlong and out-of-range
encodings. -/
def utf8Seq4 (b : Nat) (ob1 ob2 ob3 : Option Nat) : Char :=
  match ob1, ob2, ob3 with
  | some b1, some b2, some b3 =>
    if (0x80 ≤ b1 ∧ b1 < 0xC0) ∧ (0x80 ≤ b2 ∧ b2 < 0xC0) ∧ (0x80 ≤ b3 ∧ b3 < 0xC0) then
      (if 0x10000 ≤ (b - 0xF0) * 0x40000 + (b1 - 0x80) * 0x1000 + (b2 - 0x80) * 0x40 + (b3 - 0x80)
          ∧ (b - 0xF0) * 0x40000 + (b1 - 0x80) * 0x1000 + (b2 - 0x80) * 0x40 + (b3 - 0x80)
            < 0x110000 then
         scalarOrReplacement
           ((b - 0xF0) * 0x40000 + (b1 - 0x80) * 0x1000 + (b2 - 0x80) * 0x40 + (b3 - 0x80))
       else replacementChar)
    else replacementChar
  | _, _, _ => replacementChar

/-- The `buf.toString('utf-8')` at byte level: a total UTF-8 decoder that, like
Node, replaces ill-formed sequences with U+FFFD instead of failing.  (On
ill-formed or truncated input it resynchronizes after the bytes a sequence
claimed — a simplification of WHATWG's maximal-subpart rule; the two agree on
all well-formed input, which is all the round-trip reasoning below relies on.) -/
def utf8Decode : List Nat → List Char
  | [] => []
  | b :: rest =>
    if b < 0x80 then Char.ofNat b :: utf8Decode rest
    else if b < 0xC2 then replacementChar :: utf8Decode rest
    else if b < 0xE0 then utf8Seq2 b rest.head? :: utf8Decode rest.tail
    else if b < 0xF0 then utf8Seq3 b rest.head? rest.tail.head? :: utf8Decode rest.tail.tail
    else if b < 0xF5 then
      utf8Seq4 b rest.head? rest.tail.head? rest.tail.tail.head?
        :: utf8Decode rest.tail.tail.tail
    else replacementChar :: utf8Decode rest
termination_by bytes => bytes.length
decreasing_by all_goals simp [List.length_tail] <;> omega

/-- The `buf.toString('utf-8')` as a `String`. -/
def bufToStringUtf8 (bytes : List Nat) : String := String.mk (utf8Decode bytes)

/-! ## `JSON.stringify` (for the credential blob) and `JSON.parse` -/

/-- The lowercase hex digit for `n < 16`, as in `JSON.stringify` escapes. -/
def hexLower (n : Nat) : Char :=
  if n < 10 then Char.ofNat (48 + n) else Char.ofNat (87 + n)

/-- One character of a JSON string, escaped exactly as `JSON.stringify` does:
two-character escapes for `"`, `\`, backspace, form feed, newline, carriage
return and tab; `\u00xx` for the remaining control characters; everything else
(non-ASCII included) literal. -/
def escapeJsonChar (c : Char) : List Char :=
  if c = '"' then ['\\', '"']
  else if c = '\\' then ['\\', '\\']
  else if c = '\x08' then ['\\', 'b']
  else if c = '\x0c' then ['\\', 'f']
  else if c = '\n' then ['\\', 'n']
  else if c = '\r' then ['\\', 'r']
  else if c = '\t' then ['\\', 't']
  else if c.toNat < 0x20 then ['\\', 'u', '0', '0', hexLower (c.toNat / 16), hexLower (c.toNat % 16)]
  else [c]

/-- A JSON string literal for `s`, quoted and escaped as `JSON.stringify` does. -/
def jsonQuote (s : String) : String :=
  "\"" ++ String.mk (s.data.flatMap escapeJsonChar) ++ "\""

/-- Comma-join of rendered members, as `JSON.stringify` separates them. -/
def joinComma : List String → String
  | [] => ""
  | [x] => x
  | x :: y :: rest => x ++ "," ++ joinComma (y :: rest)

/-- The `JSON.stringify({username, password, ehr_type: ehrType})` as `createSecret`
builds it (src/index.js:30-34): properties in declaration order, and — as in
JS — a property whose value is `undefined` is omitted entirely. -/
def jsonStringifyCreds (username password ehrType : Option String) : String :=
  let fields :=
    (match username with | some u => [("username", u)] | none => [])
    ++ (match password with | some p => [("password", p)] | none => [])
    ++ (match ehrType with | some e => [("ehr_type", e)] | none => [])
  "\x7b" ++ joinComma (fields.map fun kv => jsonQuote kv.1 ++ ":" ++ jsonQuote kv.2) ++ "\x7d"

/-- Is `c` a decimal digit? -/
def isDigitChar (c : Char) : Bool := 48 ≤ c.toNat && c.toNat ≤ 57

/-- Is `c` JSON whitespace (space, tab, line feed, carriage return)? -/
def jsonWsChar (c : Char) : Bool := c = ' ' || c = '\t' || c = '\n' || c = '\r'

/-- Drop leading JSON whitespace. -/
def dropJsonWs : List Char → List Char
  | [] => []
  | c :: cs => if jsonWsChar c then dropJsonWs cs else c :: cs

/-- The value of a hex digit, either case, or `none`. -/
def hexDigitVal (c : Char) : Option Nat :=
  if 48 ≤ c.toNat && c.toNat ≤ 57 then some (c.toNat - 48)
  else if 97 ≤ c.toNat && c.toNat ≤ 102 then some (c.toNat - 87)
  else if 65 ≤ c.toNat && c.toNat ≤ 70 then some (c.toNat - 55)
  else none

/-- The single-character JSON escapes accepted by `JSON.parse`. -/
def unescapeJsonChar (c : Char) : Option Char :=
  if c = '"' then some '"'
  else if c = '\\' then some '\\'
  else if c = '/' then some '/'
  else if c = 'b' then some '\x08'
  else if c = 'f' then some '\x0c'
  else if c = 'n' then some '\n'
  else if c = 'r' then some '\r'
  else if c = 't' then some '\t'
  else none

/-- Scan the body of a JSON string literal (the opening quote already
consumed); returns the decoded characters and the input after the closing
quote, or `none` on a malformed literal.  A `\uXXXX` escape decodes to its
scalar value; one in the surrogate range decodes to U+FFFD.  (A JS engine
instead keeps the UTF-16 unit and combines surrogate pairs; the divergence
only concerns payloads containing such escapes, which `JSON.stringify` never
emits for the credential blob and which no claim exercises.) -/
def scanJsonString : List Char → Option (List Char × List Char)
  | [] => none
  | c :: cs =>
    if c = '"' then some ([], cs)
    else if c = '\\' then
      match cs with
      | [] => none
      | e :: cs1 =>
        if e = 'u' then
          match cs1 with
          | h1 :: h2 :: h3 :: h4 :: cs2 =>
            match hexDigitVal h1, hexDigitVal h2, hexDigitVal h3, hexDigitVal h4 with
            | some v1, some v2, some v3, some v4 =>
              let n := ((v1 * 16 + v2) * 16 + v3) * 16 + v4
              (scanJsonString cs2).map fun pr => (scalarOrReplacement n :: pr.1, pr.2)
            | _, _, _, _ => none
          | _ => none
        else
          match unescapeJsonChar e with
          | some ch => (scanJsonString cs1).map fun pr => (ch :: pr.1, pr.2)
          | none => none
    else if c.toNat < 0x20 then none
    else (scanJsonString cs).map fun pr => (c :: pr.1, pr.2)
termination_by cs => cs.length
decreasing_by all_goals simp [List.length_cons] <;> omega

/-- A maximal leading run of decimal digits, and the rest. -/
def digitSpan : List Char → List Char × List Char
  | [] => ([], [])
  | c :: cs =>
    if isDigitChar c then
      let (ds, rest) := digitSpan cs
      (c :: ds, rest)
    else ([], c :: cs)

/-- The natural number denoted by a digit run. -/
def digitsToNat (ds : List Char) : Nat :=
  ds.foldl (fun acc c => acc * 10 + (c.toNat - 48)) 0

/-- Parse a JSON number per the RFC 8259 grammar (`JSON.parse` rejects `01`,
`1.`, `.5` and a bare exponent), returning it as exact decimal mantissa and
power-of-ten exponent. -/
def scanJsonNumber (input : List Char) : Option (JsonValue × List Char) :=
  let (neg, r0) := match input with
    | '-' :: t => (true, t)
    | _ => (false, input)
  match digitSpan r0 with
  | ([], _) => none
  | (intDs, r1) =>
    if intDs.length > 1 && intDs.head? = some '0' then none
    else
      let fracRes : Option (List Char × List Char) := match r1 with
        | '.' :: t =>
          match digitSpan t with
          | ([], _) => none
          | (fds, r2) => some (fds, r2)
        | _ => some ([], r1)
      match fracRes with
      | none => none
      | some (fracDs, r2) =>
        let expRes : Option (Int × List Char) := match r2 with
          | 'e' :: t | 'E' :: t =>
            let (esign, t1) : Int × List Char := match t with
              | '+' :: t' => (1, t')
              | '-' :: t' => (-1, t')
              | _ => (1, t)
            match digitSpan t1 with
            | ([], _) => none
            | (eds, r3) => some (esign * (digitsToNat eds : Int), r3)
          | _ => some (0, r2)
        match expRes with
        | none => none
        | some (expVal, r3) =>
          let mant : Int := (if neg then -1 else 1) * (digitsToNat (intDs ++ fracDs) : Int)
          some (.jnum mant (expVal - (fracDs.length : Int)), r3)

mutual

/-- The `JSON.parse` on a character list: one JSON value and the remaining input.
Structural on `fuel`; the top-level wrapper supplies fuel exceeding the input
length, which every nesting level strictly consumes. -/
def parseJsonValue : Nat → List Char → Option (JsonValue × List Char)
  | 0, _ => none
  | fuel + 1, input =>
    match dropJsonWs input with
    | 'n' :: 'u' :: 'l' :: 'l' :: r => some (.jnull, r)
    | 't' :: 'r' :: 'u' :: 'e' :: r => some (.jbool true, r)
    | 'f' :: 'a' :: 'l' :: 's' :: 'e' :: r => some (.jbool false, r)
    | '"' :: r => (scanJsonString r).map fun pr => (.jstr (String.mk pr.1), pr.2)
    | '\x7b' :: r =>
      match dropJsonWs r with
      | '\x7d' :: r1 => some (.jobj [], r1)
      | r1 => (parseJsonFields fuel r1).map fun pr => (.jobj pr.1, pr.2)
    | '[' :: r =>
      match dropJsonWs r with
      | ']' :: r1 => some (.jarr [], r1)
      | r1 => (parseJsonItems fuel r1).map fun pr => (.jarr pr.1, pr.2)
    | c :: r =>
      if c = '-' || isDigitChar c then scanJsonNumber (c :: r) else none
    | [] => none

/-- One-or-more comma-separated `"key": value` members and the input after the
closing brace (the empty object is handled in `parseJsonValue`); the member
tail is handled by `afterFieldKey` / `afterFieldValue`. -/
def parseJsonFields : Nat → List Char → Option (List (String × JsonValue) × List Char)
  | 0, _ => none
  | fuel + 1, input =>
    match dropJsonWs input with
    | '"' :: r => (scanJsonString r).bind fun pr => afterFieldKey fuel pr.1 pr.2
    | _ => none

/-- After a member's key string: expect `:`, then the member's value. -/
def afterFieldKey : Nat → List Char → List Char → Option (List (String × JsonValue) × List Char)
  | 0, _, _ => none
  | fuel + 1, key, r1 =>
    match dropJsonWs r1 with
    | ':' :: r2 => (parseJsonValue fuel r2).bind fun pr => afterFieldValue fuel (String.mk key) pr.1 pr.2
    | _ => none

/-- After a member's value: a comma continues the member list, a closing brace
ends it. -/
def afterFieldValue : Nat → String → JsonValue → List Char →
    Option (List (String × JsonValue) × List Char)
  | 0, _, _, _ => none
  | fuel + 1, key, v, r3 =>
    match dropJsonWs r3 with
    | ',' :: r4 => (parseJsonFields fuel r4).map fun pr => ((key, v) :: pr.1, pr.2)
    | '\x7d' :: r4 => some ([(key, v)], r4)
    | _ => none

/-- One-or-more comma-separated array items and the input after the closing
bracket (the empty array is handled in `parseJsonValue`). -/
def parseJsonItems : Nat → List Char → Option (List JsonValue × List Char)
  | 0, _ => none
  | fuel + 1, input =>
    match parseJsonValue fuel input with
    | none => none
    | some (v, r) =>
      match dropJsonWs r with
      | ',' :: r1 => (parseJsonItems fuel r1).map fun pr => (v :: pr.1, pr.2)
      | ']' :: r1 => some ([v], r1)
      | _ => none

end

/-- The `JSON.parse(s)`: `none` models a thrown `SyntaxError`. -/
def jsonParse (s : String) : Option JsonValue :=
  match parseJsonValue (s.length + 1) s.data with
  | some (v, rest) => if (dropJsonWs rest).isEmpty then some v else none
  | none => none

/-! ## The secret adapter and the credential endpoints (src/index.js:26-106) -/

/-- The `{name}` of a created secret container. -/
structure CreatedSecret where
  name : String
deriving DecidableEq, Repr

/-- The `{name}` of an added secret version. -/
structure SecretVersion where
  name : String
deriving DecidableEq, Repr

/-- The Secret Manager client as an oracle: each method either returns a value
or rejects (throws at the `await`). -/
structure SecretProvider where
  /-- The `client.createSecret{parent, secretId, secret: {replication: {automatic: {}}}}`. -/
  createSecret : String → Option String → Except JsError CreatedSecret
  /-- The `client.addSecretVersion{parent, payload: {data}}` with the payload bytes. -/
  addSecretVersion : String → List Nat → Except JsError SecretVersion
  /-- The `client.accessSecretVersion{name}`, returning `version.payload.data` bytes. -/
  accessSecretVersion : String → Except JsError (List Nat)

/-- The `createSecret(patientId, username, password, ehrType)` (src/index.js:28-64):
serializes the credentials, creates the secret container, adds one version
holding the UTF-8 bytes of the blob, and returns that version; the enclosing
`try/catch` turns any provider rejection into a `null` (`none`) result, so the
function itself never throws (`.error` is unreachable, and proved so). -/
def createSecret (client : SecretProvider) (patientId username password ehrType : Option String) :
    Except JsError (Option SecretVersion) × List ExtCall :=
  let projectId := "sinewave-mobile"
  let secretData := jsonStringifyCreds username password ehrType
  let parent := "projects/" ++ projectId
  match client.createSecret parent patientId with
  | .error _e => (.ok none, [.secretCreate parent patientId])
  | .ok _secret =>
    let secretName := "projects/" ++ projectId ++ "/secrets/" ++ jsTemplate patientId
    match client.addSecretVersion secretName (bufferFromUtf8 secretData) with
    | .error _e =>
        (.ok none,
         [.secretCreate parent patientId, .secretAddVersion secretName (bufferFromUtf8 secretData)])
    | .ok version =>
        (.ok (some version),
         [.secretCreate parent patientId, .secretAddVersion secretName (bufferFromUtf8 secretData)])

/-- The `fetchCredentials(patientId)` (src/index.js:66-80): reads the latest secret
version, decodes its bytes as UTF-8 and parses the JSON; the `try/catch` turns
a provider rejection or a `JSON.parse` failure into a `null` (`none`) result. -/
def fetchCredentials (client : SecretProvider) (patientId : String) :
    Except JsError (Option JsonValue) × List ExtCall :=
  let projectId := "sinewave-mobile"
  let secretName := "projects/" ++ projectId ++ "/secrets/" ++ patientId ++ "/versions/latest"
  match client.accessSecretVersion secretName with
  | .error _e => (.ok none, [.secretAccess secretName])
  | .ok payloadBytes =>
    let secretPayload := bufToStringUtf8 payloadBytes
    match jsonParse secretPayload with
    | none => (.ok none, [.secretAccess secretName])
    | some credentials => (.ok (some credentials), [.secretAccess secretName])

/-- The `GET /getCredentials` handler (src/index.js:82-96): 400 when
`patient_id` is missing or empty, otherwise fetch and apply the JS truthiness
test `if (credentials)` to choose between `res.json(credentials)` and a 404. -/
def getCredentialsHandler (client : SecretProvider) (patient_id : Option String) :
    Except JsError HttpResponse × List ExtCall :=
  if !jsTruthyStr patient_id then
    (.ok (.json 400 (.jobj [("message", .jstr "patient_id is required")])), [])
  else
    match fetchCredentials client (jsTemplate patient_id) with
    | (.error e, calls) => (.error e, calls)
    | (.ok credentials, calls) =>
      if jsTruthyOpt credentials then
        (.ok (.json 200 (credentials.getD .jnull)), calls)
      else
        (.ok (.json 404 (.jobj [("message", .jstr "Failed to fetch credentials")])), calls)

/-- The request body of `POST /storeCredentials`, after destructuring: a field
absent from the JSON body is `undefined` (`none`). -/
structure StoreBody where
  username : Option String
  password : Option String
  ehr_type : Option String
  patient_id : Option String

/-- The `POST /storeCredentials` handler (src/index.js:98-106): no validation;
calls the adapter and answers `{status, secret_version_id: response.name}` —
reading `.name` of a `null` adapter result throws a `TypeError` that nothing
catches (an unhandled fault, `.error` here). -/
def storeCredentialsHandler (client : SecretProvider) (body : StoreBody) :
    Except JsError HttpResponse × List ExtCall :=
  match createSecret client body.patient_id body.username body.password body.ehr_type with
  | (.error e, calls) => (.error e, calls)
  | (.ok none, calls) =>
      (.error (.typeError "Cannot read properties of null (reading 'name')"), calls)
  | (.ok (some response), calls) =>
      (.ok (.json 200 (.jobj [("status", .jstr "success"),
                              ("secret_version_id", .jstr response.name)])), calls)

/-! ## The search adapter and `POST /get_medical_codes` (src/index.js:108-154) -/

/-- The identifiers bound at module scope in `src/index.js`: the seven
`require` results of lines 1-7, the module-level constants of lines 9-26, the
declared functions, and the CommonJS/Node ambient globals.  Neither `path` nor
`fs` is among them: no `require('path')` or `require('fs')` appears anywhere in
the file, so those names are free in `loadMedCodes`. -/
def moduleScope : List String :=
  ["express", "SecretManagerServiceClient", "OpenAI", "Pinecone", "nodemailer",
   "functions", "cors",
   "app", "openai", "pc", "indexName", "index", "client",
   "createSecret", "fetchCredentials", "getOpenAIEmbeddings", "loadMedCodes",
   "queryCodes", "sendSecureEmail",
   "require", "module", "exports", "__dirname", "__filename",
   "process", "console", "JSON", "Buffer"]

/-- Does evaluating the identifier `id` at module scope succeed? -/
def identifierDefined (id : String) : Bool := moduleScope.contains id

/-- A match returned by `index.query`: an id, a similarity score (abstract type
`α`, standing for the provider's floating-point score) and metadata. -/
structure PineMatch (α : Type) where
  id : String
  score : α
  metadata : List (String × String)

/-- The body of an `index.query` response; the source reads `.matches` (here
`matches'`, since `matches` is a Lean keyword). -/
structure PineResponse (α : Type) where
  matches' : List (PineMatch α)

/-- One element of `response.data` from `openai.embeddings.create`. -/
structure EmbedDatum (α : Type) where
  embedding : List α

/-- The environment of the search pipeline: the local filesystem (for
`medcodes.json`) and the embedding and vector-index providers, with `α` the
abstract type of a vector component / score. -/
structure SearchEnv (α : Type) where
  /-- The `fs.readFileSync` relative to `__dirname`, by file name; `none` means the
  file does not exist (the read would throw `ENOENT`). -/
  files : String → Option String
  /-- The `openai.embeddings.create{input, model}`, returning `response.data`. -/
  embeddingsCreate : List String → String → Except JsError (List (EmbedDatum α))
  /-- The `index.query{vector, topK, includeMetadata: true}`. -/
  indexQuery : List α → Nat → Except JsError (PineResponse α)

/-- The `text.replace(/\n/g, " ")`: collapse embedded newlines to spaces. -/
def collapseNewlines (text : String) : String :=
  text.map fun c => if c = '\n' then ' ' else c

/-- The `getOpenAIEmbeddings(text, model)` (src/index.js:108-112): collapse
newlines, request one embedding, return `response.data[0].embedding` (reading
index 0 of an empty `data` array would make `.embedding` throw a `TypeError`). -/
def getOpenAIEmbeddings {α : Type} (env : SearchEnv α) (text : String) :
    Except JsError (List α) × List ExtCall :=
  let text1 := collapseNewlines text
  let model := "text-embedding-ada-002"
  match env.embeddingsCreate [text1] model with
  | .error e => (.error e, [.embedCreate [text1] model])
  | .ok data =>
    match data.head? with
    | none => (.error (.typeError "Cannot read properties of undefined (reading 'embedding')"),
               [.embedCreate [text1] model])
    | some d => (.ok d.embedding, [.embedCreate [text1] model])

/-- The `loadMedCodes` (src/index.js:114-119).  Its body evaluates
`path.join(__dirname, 'medcodes.json')` and then `fs.readFileSync`: the
identifiers `path` and `fs` are looked up at module scope first, and an
undefined one throws a `ReferenceError` before anything else runs.  When both
were defined the function would read and `JSON.parse` the file. -/
def loadMedCodes (files : String → Option String) : Except JsError JsonValue :=
  if identifierDefined "path" then
    if identifierDefined "fs" then
      match files "medcodes.json" with
      | none => .error (.nodeError "ENOENT: no such file or directory, open 'medcodes.json'")
      | some data =>
        match jsonParse data with
        | none => .error (.syntaxError "Unexpected token in JSON")
        | some v => .ok v
    else .error (.referenceError "fs")
  else .error (.referenceError "path")

/-- A `{code, description}` record returned by `queryCodes`. -/
structure CodeResult where
  code : String
  description : JsonValue

/-- The `queryCodes(queryText, topK)` (src/index.js:121-134): load the local code
table, embed the query, ask the index for the `topK` nearest neighbours, and
map each match to `{code: match.id, description: medCodes[match.id] ||
"Description not found"}`. -/
def queryCodes {α : Type} (env : SearchEnv α) (queryText : String) (topK : Nat) :
    Except JsError (List CodeResult) × List ExtCall :=
  match loadMedCodes env.files with
  | .error e => (.error e, [])
  | .ok medCodes =>
    match getOpenAIEmbeddings env queryText with
    | (.error e, calls) => (.error e, calls)
    | (.ok queryEmbedding, calls) =>
      match env.indexQuery queryEmbedding topK with
      | .error e => (.error e, calls ++ [.indexQuery topK])
      | .ok queryResults =>
        match queryResults.matches'.mapM (fun m =>
            (jsIndex medCodes m.id).map fun looked =>
              { code := m.id, description := jsOrElse looked (.jstr "Description not found")
                : CodeResult }) with
        | .error e => (.error e, calls ++ [.indexQuery topK])
        | .ok results => (.ok results, calls ++ [.indexQuery topK])

/-- The `POST /get_medical_codes` handler (src/index.js:137-154): 400 when
`diagnosis` is missing or falsy; otherwise run `queryCodes(diagnosis, 10)`
under a `try/catch` that maps any failure to a 500 JSON error response. -/
def getMedicalCodesHandler {α : Type} (env : SearchEnv α) (diagnosis : Option String) :
    Except JsError HttpResponse × List ExtCall :=
  if !jsTruthyStr diagnosis then
    (.ok (.json 400 (.jobj [("error", .jstr "No diagnosis text provided")])), [])
  else
    let topK := 10
    match queryCodes env (jsTemplate diagnosis) topK with
    | (.error _e, calls) =>
        (.ok (.json 500 (.jobj [("error", .jstr "Failed to retrieve medical codes")])), calls)
    | (.ok codes, calls) =>
        (.ok (.json 200 (.jobj [("codes", .jarr (codes.map fun c =>
            .jobj [("code", .jstr c.code), ("description", c.description)]))])), calls)

/-! ## The mail adapter and `POST /send_email` (src/index.js:156-193) -/

/-- The mail layer as oracles: `createTransport` may throw synchronously
(`.error`); `sendMailResult` is the later, asynchronous outcome of
`transporter.sendMail` — `.error` an `error` passed to the callback, `.ok` an
`info.response` string. -/
structure MailEnv where
  /-- The `nodemailer.createTransport{service: 'gmail', auth: {user, pass}}`. -/
  createTransport : Option String → Option String → Except JsError Unit
  /-- The asynchronous delivery outcome delivered to the `sendMail` callback. -/
  sendMailResult : Except String String

/-- The `sendSecureEmail(subject, body, sender, password, toEmail)`
(src/index.js:156-179): build the transport, hand `sendMail` a callback that
only logs, and return at once.  The result is the list of `console.log` lines
the callback will eventually print; a synchronous `createTransport` throw is
the only way out via `.error`. -/
def sendSecureEmail (menv : MailEnv) (subject body sender password toEmail : Option String) :
    Except JsError (List String) :=
  match menv.createTransport sender password with
  | .error e => .error e
  | .ok _transporter =>
    let _mailOptions := (sender, toEmail, subject, body)
    .ok (match menv.sendMailResult with
         | .error error => [error]
         | .ok info => ["Email sent: " ++ info])

/-- Environment variables read by the mail endpoint. -/
structure ProcessEnv where
  mailUsername : Option String
  mailPassword : Option String

/-- The `POST /send_email` handler (src/index.js:181-193): fire off
`sendSecureEmail` and answer success immediately; the `try/catch` turns a
synchronous throw into a 500 with the stringified error.  The second component
is the list of log lines the async callback will print. -/
def sendEmailHandler (menv : MailEnv) (procEnv : ProcessEnv)
    (subject body to_email : Option String) :
    Except JsError HttpResponse × List String :=
  let sender := procEnv.mailUsername
  let password := procEnv.mailPassword
  match sendSecureEmail menv subject body sender password to_email with
  | .error e => (.ok (.json 500 (.jobj [("error", .jstr (jsErrorToString e))])), [])
  | .ok logs => (.ok (.json 200 (.jobj [("message", .jstr "Email sent successfully!")])), logs)

/-! ## Concrete environments used by witnesses and counterexamples -/

/-- A secret provider whose calls all succeed; its stored payload is the blob
`createSecret` writes for the sample credentials. -/
def secretProviderOk : SecretProvider :=
  { createSecret := fun _parent secretId =>
      .ok ⟨"projects/sinewave-mobile/secrets/" ++ jsTemplate secretId⟩
    addSecretVersion := fun parent _data => .ok ⟨parent ++ "/versions/1"⟩
    accessSecretVersion := fun _name =>
      .ok (bufferFromUtf8 (jsonStringifyCreds (some "alice") (some "pa$$w0rd") (some "epic"))) }

/-- A secret provider whose calls all reject. -/
def secretProviderDown : SecretProvider :=
  { createSecret := fun _ _ => .error (.providerError "14 UNAVAILABLE")
    addSecretVersion := fun _ _ => .error (.providerError "14 UNAVAILABLE")
    accessSecretVersion := fun _ => .error (.providerError "14 UNAVAILABLE") }

/-- A secret provider that succeeds and hands back the five bytes of the JSON
document `false` — a well-formed payload whose parse is falsy. -/
def secretProviderFalse : SecretProvider :=
  { createSecret := fun _ _ => .error (.providerError "already exists")
    addSecretVersion := fun _ _ => .error (.providerError "not found")
    accessSecretVersion := fun _ => .ok (bufferFromUtf8 "false") }

/-- A search environment in which every external piece works: the code table
file exists and parses, the embedding call succeeds, and the index returns one
match; scores and vector components are `Unit`. -/
def searchEnvHappy : SearchEnv Unit :=
  { files := fun _ => some "\x7b\"E11.9\":\"Type 2 diabetes\"\x7d"
    embeddingsCreate := fun _ _ => .ok [⟨[()]⟩]
    indexQuery := fun _ _ => .ok ⟨[⟨"E11.9", (), []⟩]⟩ }

/-- A mail environment whose transport builds fine synchronously but whose
delivery later fails asynchronously. -/
def mailEnvAsyncFail : MailEnv :=
  { createTransport := fun _ _ => .ok ()
    sendMailResult := .error "Invalid login: 535-5.7.8 Username and Password not accepted" }

/-- A `POST /storeCredentials` body with every required field missing. -/
def emptyStoreBody : StoreBody := ⟨none, none, none, none⟩

/-- A fully populated `POST /storeCredentials` body. -/
def aliceStoreBody : StoreBody := ⟨some "alice", some "pa$$w0rd", some "epic", some "patient-7"⟩

/-! ## Helper lemmas: the UTF-8 codec round-trips -/

/-- Decoding the valid scalar value of a `Char` gives that `Char` back. -/
theorem scalarOrReplacement_toNat (c : Char) : scalarOrReplacement c.toNat = c := by
  rw [scalarOrReplacement, if_pos (show c.toNat.isValidChar from c.valid), Char.ofNat_toNat]

/-- One encoded character decodes to itself, whatever bytes follow. -/
theorem utf8Decode_utf8Bytes (c : Char) (bs : List Nat) :
    utf8Decode (utf8Bytes c ++ bs) = c :: utf8Decode bs := by
  have hvalid : c.toNat < 0xd800 ∨ (0xdfff < c.toNat ∧ c.toNat < 0x110000) := c.valid
  by_cases h1 : c.toNat < 0x80
  · have hB : utf8Bytes c = [c.toNat] := by
      simp only [utf8Bytes]
      rw [if_pos h1]
    rw [hB, List.cons_append, List.nil_append]
    simp only [utf8Decode]
    rw [if_pos h1, Char.ofNat_toNat]
  · by_cases h2 : c.toNat < 0x800
    · have hB : utf8Bytes c = [0xC0 + c.toNat / 0x40, 0x80 + c.toNat % 0x40] := by
        simp only [utf8Bytes]
        rw [if_neg h1, if_pos h2]
      rw [hB, List.cons_append, List.cons_append, List.nil_append]
      simp only [utf8Decode, List.head?_cons, List.tail_cons]
      rw [if_neg (by omega), if_neg (by omega), if_pos (by omega)]
      simp only [utf8Seq2]
      rw [if_pos (by omega)]
      have harg : (0xC0 + c.toNat / 0x40 - 0xC0) * 0x40 + (0x80 + c.toNat % 0x40 - 0x80)
          = c.toNat := by omega
      rw [harg, scalarOrReplacement_toNat]
    · by_cases h3 : c.toNat < 0x10000
      · have hB : utf8Bytes c
            = [0xE0 + c.toNat / 0x1000, 0x80 + c.toNat / 0x40 % 0x40, 0x80 + c.toNat % 0x40] := by
          simp only [utf8Bytes]
          rw [if_neg h1, if_neg h2, if_pos h3]
        rw [hB, List.cons_append, List.cons_append, List.cons_append, List.nil_append]
        simp only [utf8Decode, List.head?_cons, List.tail_cons]
        rw [if_neg (by omega), if_neg (by omega), if_neg (by omega), if_pos (by omega)]
        simp only [utf8Seq3]
        rw [if_pos (by omega)]
        have harg : (0xE0 + c.toNat / 0x1000 - 0xE0) * 0x1000
            + (0x80 + c.toNat / 0x40 % 0x40 - 0x80) * 0x40 + (0x80 + c.toNat % 0x40 - 0x80)
            = c.toNat := by omega
        rw [harg]
        rw [if_pos (by omega), scalarOrReplacement_toNat]
      · have hB : utf8Bytes c
            = [0xF0 + c.toNat / 0x40000, 0x80 + c.toNat / 0x1000 % 0x40,
               0x80 + c.toNat / 0x40 % 0x40, 0x80 + c.toNat % 0x40] := by
          simp only [utf8Bytes]
          rw [if_neg h1, if_neg h2, if_neg h3]
        rw [hB, List.cons_append, List.cons_append, List.cons_append, List.cons_append,
            List.nil_append]
        simp only [utf8Decode, List.head?_cons, List.tail_cons]
        rw [if_neg (by omega), if_neg (by omega), if_neg (by omega), if_neg (by omega),
            if_pos (by omega)]
        simp only [utf8Seq4]
        rw [if_pos (by omega)]
        have harg : (0xF0 + c.toNat / 0x40000 - 0xF0) * 0x40000
            + (0x80 + c.toNat / 0x1000 % 0x40 - 0x80) * 0x1000
            + (0x80 + c.toNat / 0x40 % 0x40 - 0x80) * 0x40 + (0x80 + c.toNat % 0x40 - 0x80)
            = c.toNat := by omega
        rw [harg]
        rw [if_pos (by omega), scalarOrReplacement_toNat]

/-- Decoding an encoded character list gives the list back. -/
theorem utf8Decode_flatMap (cs : List Char) : utf8Decode (cs.flatMap utf8Bytes) = cs := by
  induction cs with
  | nil => rw [List.flatMap_nil]; simp only [utf8Decode]
  | cons c rest ih => rw [List.flatMap_cons, utf8Decode_utf8Bytes, ih]

/-- The `buf.toString('utf-8')` inverts `Buffer.from(s, 'utf-8')`. -/
theorem bufToStringUtf8_bufferFromUtf8 (s : String) :
    bufToStringUtf8 (bufferFromUtf8 s) = s := by
  rw [bufToStringUtf8, bufferFromUtf8, utf8Decode_flatMap]

/-! ## Helper lemmas: `JSON.parse` inverts `JSON.stringify` string escaping -/

/-- The `hexDigitVal` reads back the digit `hexLower` prints. -/
theorem hexDigitVal_hexLower (d : Nat) (h : d < 16) : hexDigitVal (hexLower d) = some d := by
  interval_cases d <;> decide

/-- A character outside the escape-worthy set scans as itself. -/
theorem scanJsonString_plain (c : Char) (r : List Char)
    (hq : c ≠ '"') (hb : c ≠ '\\') (hc : ¬ c.toNat < 0x20) :
    scanJsonString (c :: r) = (scanJsonString r).map fun pr => (c :: pr.1, pr.2) := by
  rw [scanJsonString.eq_def]
  dsimp only
  rw [if_neg hq, if_neg hb, if_neg hc]

/-- A two-character escape scans to the character it stands for. -/
theorem scanJsonString_escape2 (e ch : Char) (r : List Char)
    (hu : e ≠ 'u') (hun : unescapeJsonChar e = some ch) :
    scanJsonString ('\\' :: e :: r) = (scanJsonString r).map fun pr => (ch :: pr.1, pr.2) := by
  rw [scanJsonString.eq_def]
  dsimp only
  rw [if_neg (by decide), if_pos rfl, if_neg hu, hun]

/-- One `JSON.stringify`-escaped character scans back to itself. -/
theorem scanJsonString_escapeJsonChar (c : Char) (r : List Char) :
    scanJsonString (escapeJsonChar c ++ r) = (scanJsonString r).map fun pr => (c :: pr.1, pr.2) := by
  by_cases hq : c = '"'
  · subst hq
    rw [escapeJsonChar, if_pos rfl, List.cons_append, List.cons_append, List.nil_append,
        scanJsonString_escape2 '\"' '\"' r (by decide) rfl]
  · by_cases hb : c = '\\'
    · subst hb
      rw [escapeJsonChar, if_neg (by decide), if_pos rfl, List.cons_append, List.cons_append,
          List.nil_append, scanJsonString_escape2 '\\' '\\' r (by decide) rfl]
    · by_cases h08 : c = '\x08'
      · subst h08
        rw [escapeJsonChar, if_neg (by decide), if_neg (by decide), if_pos rfl,
            List.cons_append, List.cons_append, List.nil_append,
            scanJsonString_escape2 'b' '\x08' r (by decide) rfl]
      · by_cases h0c : c = '\x0c'
        · subst h0c
          rw [escapeJsonChar, if_neg (by decide), if_neg (by decide), if_neg (by decide),
              if_pos rfl, List.cons_append, List.cons_append, List.nil_append,
              scanJsonString_escape2 'f' '\x0c' r (by decide) rfl]
        · by_cases h0a : c = '\n'
          · subst h0a
            rw [escapeJsonChar, if_neg (by decide), if_neg (by decide), if_neg (by decide),
                if_neg (by decide), if_pos rfl, List.cons_append, List.cons_append,
                List.nil_append, scanJsonString_escape2 'n' '\n' r (by decide) rfl]
          · by_cases h0d : c = '\r'
            · subst h0d
              rw [escapeJsonChar, if_neg (by decide), if_neg (by decide), if_neg (by decide),
                  if_neg (by decide), if_neg (by decide), if_pos rfl, List.cons_append,
                  List.cons_append, List.nil_append,
                  scanJsonString_escape2 'r' '\r' r (by decide) rfl]
            · by_cases h09 : c = '\t'
              · subst h09
                rw [escapeJsonChar, if_neg (by decide), if_neg (by decide), if_neg (by decide),
                    if_neg (by decide), if_neg (by decide), if_neg (by decide), if_pos rfl,
                    List.cons_append, List.cons_append, List.nil_append,
                    scanJsonString_escape2 't' '\t' r (by decide) rfl]
              · by_cases hctl : c.toNat < 0x20
                · rw [escapeJsonChar, if_neg hq, if_neg hb, if_neg h08, if_neg h0c, if_neg h0a,
                      if_neg h0d, if_neg h09, if_pos hctl]
                  rw [List.cons_append, List.cons_append, List.cons_append, List.cons_append,
                      List.cons_append, List.cons_append, List.nil_append]
                  rw [scanJsonString.eq_def]
                  dsimp only
                  rw [if_neg (by decide), if_pos rfl, if_pos rfl]
                  rw [hexDigitVal_hexLower (c.toNat / 16) (by omega),
                      hexDigitVal_hexLower (c.toNat % 16) (by omega)]
                  show Option.map (fun pr =>
                      (scalarOrReplacement (((0 * 16 + 0) * 16 + c.toNat / 16) * 16 + c.toNat % 16)
                        :: pr.1, pr.2)) (scanJsonString r) = _
                  have harg : ((0 * 16 + 0) * 16 + c.toNat / 16) * 16 + c.toNat % 16 = c.toNat := by
                    omega
                  rw [harg, scalarOrReplacement_toNat]
                · rw [escapeJsonChar, if_neg hq, if_neg hb, if_neg h08, if_neg h0c, if_neg h0a,
                      if_neg h0d, if_neg h09, if_neg hctl, List.cons_append, List.nil_append,
                      scanJsonString_plain c r hq hb hctl]

/-! ## Helper lemmas: parsing the stringified credential object -/

/-- Scanning an escaped character run stops at the first unescaped quote. -/
theorem scanJsonString_flat (cs rest : List Char) :
    scanJsonString (cs.flatMap escapeJsonChar ++ '"' :: rest) = some (cs, rest) := by
  induction cs with
  | nil =>
    rw [List.flatMap_nil, List.nil_append, scanJsonString.eq_def]
    dsimp only
    rw [if_pos rfl]
  | cons c cs ih =>
    rw [List.flatMap_cons, List.append_assoc, scanJsonString_escapeJsonChar, ih, Option.map_some']

/-- The character list of a `jsonQuote` output. -/
theorem data_jsonQuote (s : String) :
    (jsonQuote s).data = '"' :: (s.data.flatMap escapeJsonChar ++ ['"']) := by
  rw [jsonQuote]
  rw [String.data_append, String.data_append]
  rfl

/-- A quoted string in value position parses to that string. -/
theorem parseJsonValue_quoteStep (f : Nat) (r : List Char) :
    parseJsonValue (f + 1) ('"' :: r)
      = (scanJsonString r).map fun pr => (JsonValue.jstr (String.mk pr.1), pr.2) := rfl

/-- An opening brace followed by a quote hands over to the member grammar. -/
theorem parseJsonValue_objQuoteStep (f : Nat) (r : List Char) :
    parseJsonValue (f + 1) ('\x7b' :: '"' :: r)
      = (parseJsonFields f ('"' :: r)).map fun pr => (JsonValue.jobj pr.1, pr.2) := rfl

/-- A member list starting with a quoted key scans the key. -/
theorem parseJsonFields_quoteStep (f : Nat) (r : List Char) :
    parseJsonFields (f + 1) ('"' :: r)
      = (scanJsonString r).bind fun pr => afterFieldKey f pr.1 pr.2 := rfl

/-- After the key, a colon and a quote start the member's string value. -/
theorem afterFieldKey_step (f : Nat) (key r : List Char) :
    afterFieldKey (f + 1) key (':' :: '"' :: r)
      = (parseJsonValue f ('"' :: r)).bind fun pr => afterFieldValue f (String.mk key) pr.1 pr.2 :=
  rfl

/-- After the value, a comma continues with the remaining members. -/
theorem afterFieldValue_comma (f : Nat) (key : String) (v : JsonValue) (r : List Char) :
    afterFieldValue (f + 1) key v (',' :: r)
      = (parseJsonFields f r).map fun pr => ((key, v) :: pr.1, pr.2) := rfl

/-- After the value, a closing brace ends the member list. -/
theorem afterFieldValue_end (f : Nat) (key : String) (v : JsonValue) (r : List Char) :
    afterFieldValue (f + 1) key v ('\x7d' :: r) = some ([(key, v)], r) := rfl

/-- One `"key":"value"` member followed by a comma: the member is consumed and
the remaining members continue with three fewer units of fuel. -/
theorem parseJsonFields_memberComma (f : Nat) (k v : String) (rest : List Char) :
    parseJsonFields (f + 3)
        ('"' :: (k.data.flatMap escapeJsonChar
          ++ '"' :: ':' :: '"' :: (v.data.flatMap escapeJsonChar ++ '"' :: ',' :: rest)))
      = (parseJsonFields f rest).map fun pr => ((k, JsonValue.jstr v) :: pr.1, pr.2) := by
  rw [show f + 3 = f + 2 + 1 from rfl, parseJsonFields_quoteStep, scanJsonString_flat,
      Option.some_bind]
  rw [show f + 2 = f + 1 + 1 from rfl, afterFieldKey_step, parseJsonValue_quoteStep,
      scanJsonString_flat, Option.map_some', Option.some_bind]
  show afterFieldValue (f + 1) (String.mk k.data) (.jstr (String.mk v.data)) (',' :: rest) = _
  rw [afterFieldValue_comma]

/-- The final `"key":"value"` member, closed by the object's brace. -/
theorem parseJsonFields_memberEnd (f : Nat) (k v : String) (rest : List Char) :
    parseJsonFields (f + 3)
        ('"' :: (k.data.flatMap escapeJsonChar
          ++ '"' :: ':' :: '"' :: (v.data.flatMap escapeJsonChar ++ '"' :: '\x7d' :: rest)))
      = some ([(k, JsonValue.jstr v)], rest) := by
  rw [show f + 3 = f + 2 + 1 from rfl, parseJsonFields_quoteStep, scanJsonString_flat,
      Option.some_bind]
  rw [show f + 2 = f + 1 + 1 from rfl, afterFieldKey_step, parseJsonValue_quoteStep,
      scanJsonString_flat, Option.map_some', Option.some_bind]
  show afterFieldValue (f + 1) (String.mk k.data) (.jstr (String.mk v.data)) ('\x7d' :: rest) = _
  rw [afterFieldValue_end]

/-- The exact character list `JSON.stringify` produces for a full credential
record, in the shape the member-parsing lemmas consume. -/
theorem data_stringifyCreds (u p e : String) :
    (jsonStringifyCreds (some u) (some p) (some e)).data
      = '\x7b' :: '"' :: ("username".data.flatMap escapeJsonChar
          ++ '"' :: ':' :: '"' :: (u.data.flatMap escapeJsonChar
          ++ '"' :: ',' :: '"' :: ("password".data.flatMap escapeJsonChar
          ++ '"' :: ':' :: '"' :: (p.data.flatMap escapeJsonChar
          ++ '"' :: ',' :: '"' :: ("ehr_type".data.flatMap escapeJsonChar
          ++ '"' :: ':' :: '"' :: (e.data.flatMap escapeJsonChar
          ++ '"' :: '\x7d' :: [])))))) := by
  simp only [jsonStringifyCreds, List.cons_append, List.nil_append, List.map_cons, List.map_nil,
    joinComma, data_jsonQuote, String.data_append, List.append_assoc, List.singleton_append]

/-- Parsing the stringified credential record yields the credential object. -/
theorem parseJsonValue_stringifyCreds (f : Nat) (u p e : String) :
    parseJsonValue (f + 10) ((jsonStringifyCreds (some u) (some p) (some e)).data)
      = some (.jobj [("username", .jstr u), ("password", .jstr p), ("ehr_type", .jstr e)], []) := by
  rw [data_stringifyCreds]
  rw [show f + 10 = f + 9 + 1 from rfl, parseJsonValue_objQuoteStep]
  rw [show f + 9 = f + 6 + 3 from rfl, parseJsonFields_memberComma]
  rw [show f + 6 = f + 3 + 3 from rfl, parseJsonFields_memberComma]
  rw [parseJsonFields_memberEnd]
  rw [Option.map_some', Option.map_some', Option.map_some']

/-- The `JSON.parse` inverts `JSON.stringify` on a full credential record. -/
theorem jsonParse_stringifyCreds (u p e : String) :
    jsonParse (jsonStringifyCreds (some u) (some p) (some e))
      = some (.jobj [("username", .jstr u), ("password", .jstr p), ("ehr_type", .jstr e)]) := by
  unfold jsonParse
  have hlen : 9 ≤ (jsonStringifyCreds (some u) (some p) (some e)).length := by
    show 9 ≤ (jsonStringifyCreds (some u) (some p) (some e)).data.length
    rw [data_stringifyCreds]
    simp only [List.length_cons, List.length_append]
    omega
  rw [show (jsonStringifyCreds (some u) (some p) (some e)).length + 1
      = (jsonStringifyCreds (some u) (some p) (some e)).length - 9 + 10 by omega]
  rw [parseJsonValue_stringifyCreds]
  rfl

/-! ## Helper lemmas: unfoldings of the adapters and handlers -/

/-- A non-empty `patient_id` / `diagnosis` field is truthy. -/
theorem jsTruthyStr_some {s : String} (h : s ≠ "") : jsTruthyStr (some s) = true := by
  have : s.isEmpty = false := by
    rw [Bool.eq_false_iff]
    intro hcontra
    exact h ((String.isEmpty_iff s).mp hcontra)
  rw [jsTruthyStr, this, Bool.not_false]

/-- The `createSecret`, with its string templates evaluated: the exact case
analysis its body performs. -/
theorem createSecret_eq (client : SecretProvider)
    (patientId username password ehrType : Option String) :
    createSecret client patientId username password ehrType
      = match client.createSecret "projects/sinewave-mobile" patientId with
        | .error _ => (.ok none, [.secretCreate "projects/sinewave-mobile" patientId])
        | .ok _ =>
          match client.addSecretVersion ("projects/sinewave-mobile/secrets/" ++ jsTemplate patientId)
              (bufferFromUtf8 (jsonStringifyCreds username password ehrType)) with
          | .error _ =>
              (.ok none,
               [.secretCreate "projects/sinewave-mobile" patientId,
                .secretAddVersion ("projects/sinewave-mobile/secrets/" ++ jsTemplate patientId)
                  (bufferFromUtf8 (jsonStringifyCreds username password ehrType))])
          | .ok version =>
              (.ok (some version),
               [.secretCreate "projects/sinewave-mobile" patientId,
                .secretAddVersion ("projects/sinewave-mobile/secrets/" ++ jsTemplate patientId)
                  (bufferFromUtf8 (jsonStringifyCreds username password ehrType))]) := by
  unfold createSecret
  dsimp only
  rw [show ("projects/" ++ "sinewave-mobile" : String) = "projects/sinewave-mobile" from rfl]
  rw [show ("projects/sinewave-mobile" ++ "/secrets/" : String)
      = "projects/sinewave-mobile/secrets/" from rfl]

/-- The `fetchCredentials`, with its string templates evaluated: the exact case
analysis its body performs. -/
theorem fetchCredentials_eq (client : SecretProvider) (patientId : String) :
    fetchCredentials client patientId
      = match client.accessSecretVersion
            ("projects/sinewave-mobile/secrets/" ++ patientId ++ "/versions/latest") with
        | .error _ =>
            (.ok none,
             [.secretAccess ("projects/sinewave-mobile/secrets/" ++ patientId ++ "/versions/latest")])
        | .ok payloadBytes =>
          match jsonParse (bufToStringUtf8 payloadBytes) with
          | none =>
              (.ok none,
               [.secretAccess
                  ("projects/sinewave-mobile/secrets/" ++ patientId ++ "/versions/latest")])
          | some credentials =>
              (.ok (some credentials),
               [.secretAccess
                  ("projects/sinewave-mobile/secrets/" ++ patientId ++ "/versions/latest")]) := by
  unfold fetchCredentials
  dsimp only
  rw [show ("projects/" ++ "sinewave-mobile" : String) = "projects/sinewave-mobile" from rfl]
  rw [show ("projects/sinewave-mobile" ++ "/secrets/" : String)
      = "projects/sinewave-mobile/secrets/" from rfl]

/-- The `GET /getCredentials` handler on a non-empty `patient_id`. -/
theorem getCredentialsHandler_some (client : SecretProvider) (pid : String) (h : pid ≠ "") :
    getCredentialsHandler client (some pid)
      = ((match (fetchCredentials client pid).1 with
          | .error e => Except.error e
          | .ok credentials =>
            if jsTruthyOpt credentials then .ok (.json 200 (credentials.getD .jnull))
            else .ok (.json 404 (.jobj [("message", .jstr "Failed to fetch credentials")]))),
         (fetchCredentials client pid).2) := by
  unfold getCredentialsHandler
  rw [jsTruthyStr_some h]
  rw [if_neg (by simp)]
  show (match fetchCredentials client pid with
        | (Except.error e, calls) => (Except.error e, calls)
        | (Except.ok credentials, calls) =>
          if jsTruthyOpt credentials then
            (Except.ok (HttpResponse.json 200 (credentials.getD .jnull)), calls)
          else
            (Except.ok (HttpResponse.json 404
              (.jobj [("message", .jstr "Failed to fetch credentials")])), calls))
      = _
  rcases hfc : fetchCredentials client pid with ⟨r, calls⟩
  cases r with
  | error e => rfl
  | ok credentials =>
    dsimp only
    by_cases ht : jsTruthyOpt credentials = true
    · rw [if_pos ht, if_pos ht]
    · rw [if_neg ht, if_neg ht]

/-- With neither `path` nor `fs` in module scope, `loadMedCodes` throws a
`ReferenceError` for `path` before anything else runs. -/
theorem loadMedCodes_referenceError (files : String → Option String) :
    loadMedCodes files = .error (.referenceError "path") := by
  unfold loadMedCodes
  rw [if_neg (by decide)]

/-- Hence every `queryCodes` call throws that `ReferenceError` before any
embedding or index call is made: its trace is empty. -/
theorem queryCodes_referenceError {α : Type} (env : SearchEnv α) (queryText : String)
    (topK : Nat) :
    queryCodes env queryText topK = (.error (.referenceError "path"), []) := by
  unfold queryCodes
  rw [loadMedCodes_referenceError]

/-- The `POST /get_medical_codes` handler on a non-empty diagnosis: the pipeline
fails, the catch turns the failure into the 500 error body, no external call
was made. -/
theorem getMedicalCodesHandler_some {α : Type} (env : SearchEnv α) (d : String) (h : d ≠ "") :
    getMedicalCodesHandler env (some d)
      = (.ok (.json 500 (.jobj [("error", .jstr "Failed to retrieve medical codes")])), []) := by
  unfold getMedicalCodesHandler
  rw [jsTruthyStr_some h]
  rw [if_neg (by simp)]
  dsimp only
  rw [queryCodes_referenceError]

/-! ## The claims -/

/-- Claim C3.  `loadMedCodes` references the identifiers `path` and `fs`, which
are never imported in the module; therefore every call to `queryCodes` raises
a `ReferenceError` before reaching the embedding provider (its external-call
trace is empty), and every `POST /get_medical_codes` request with a non-empty
`diagnosis` returns the 500 response `{error: "Failed to retrieve medical
codes"}` — never a 200 with codes. -/
theorem c3_missing_imports_make_queryCodes_raise {α : Type} (env : SearchEnv α)
    (queryText : String) (topK : Nat) (d : String) (hd : d ≠ "") :
    identifierDefined "path" = false
    ∧ identifierDefined "fs" = false
    ∧ queryCodes env queryText topK = (.error (.referenceError "path"), [])
    ∧ getMedicalCodesHandler env (some d)
        = (.ok (.json 500 (.jobj [("error", .jstr "Failed to retrieve medical codes")])), []) :=
  ⟨by decide, by decide, queryCodes_referenceError env queryText topK,
   getMedicalCodesHandler_some env d hd⟩

/-- Witness for C3 at a concrete, fully working environment and diagnosis. -/
theorem c3_missing_imports_make_queryCodes_raise_witness :
    identifierDefined "path" = false
    ∧ identifierDefined "fs" = false
    ∧ queryCodes searchEnvHappy "flu" 10 = (.error (.referenceError "path"), [])
    ∧ getMedicalCodesHandler searchEnvHappy (some "flu")
        = (.ok (.json 500 (.jobj [("error", .jstr "Failed to retrieve medical codes")])), []) :=
  c3_missing_imports_make_queryCodes_raise searchEnvHappy "flu" 10 "flu" (by decide)

/-- Claim C1, settled as a code bug.  The claimed pipeline of `queryCodes` is unreachable: in
an environment where the code table file exists and parses, the embedding call
succeeds and the index returns a match, `queryCodes` still throws
`ReferenceError: path is not defined` before its first provider call, and the
endpoint answers 500 instead of the claimed `{code, description}` list. -/
theorem c1_pipeline_unreachable_eval :
    queryCodes searchEnvHappy "acute sinusitis" 10 = (.error (.referenceError "path"), [])
    ∧ getMedicalCodesHandler searchEnvHappy (some "acute sinusitis")
        = (.ok (.json 500 (.jobj [("error", .jstr "Failed to retrieve medical codes")])), []) :=
  ⟨queryCodes_referenceError searchEnvHappy "acute sinusitis" 10,
   getMedicalCodesHandler_some searchEnvHappy "acute sinusitis" (by decide)⟩

/-- Claim C7.  A `GET /getCredentials` request whose `patient_id` is absent or
falsy answers 400 `{message: "patient_id is required"}` and attempts no
provider call. -/
theorem c7_missing_patient_id_400 (client : SecretProvider) (patient_id : Option String)
    (h : patient_id = none ∨ patient_id = some "") :
    getCredentialsHandler client patient_id
      = (.ok (.json 400 (.jobj [("message", .jstr "patient_id is required")])), []) := by
  rcases h with rfl | rfl <;> rfl

/-- Witness for C7 at the absent query parameter. -/
theorem c7_missing_patient_id_400_witness :
    getCredentialsHandler secretProviderDown none
      = (.ok (.json 400 (.jobj [("message", .jstr "patient_id is required")])), []) :=
  c7_missing_patient_id_400 secretProviderDown none (Or.inl rfl)

/-- Claim C8.  A `POST /get_medical_codes` request whose `diagnosis` is absent or
falsy answers 400 with an error message and attempts no embedding call. -/
theorem c8_missing_diagnosis_400 {α : Type} (env : SearchEnv α) (diagnosis : Option String)
    (h : diagnosis = none ∨ diagnosis = some "") :
    getMedicalCodesHandler env diagnosis
      = (.ok (.json 400 (.jobj [("error", .jstr "No diagnosis text provided")])), []) := by
  rcases h with rfl | rfl <;> rfl

/-- Witness for C8 at the absent body field. -/
theorem c8_missing_diagnosis_400_witness :
    getMedicalCodesHandler searchEnvHappy none
      = (.ok (.json 400 (.jobj [("error", .jstr "No diagnosis text provided")])), []) :=
  c8_missing_diagnosis_400 searchEnvHappy none (Or.inl rfl)

/-- Claim C9.  For a non-empty diagnosis, a failure raised anywhere in the
code-search pipeline yields the 500 server-error JSON response from the
handler — an `.ok` response, never a propagated `.error` fault. -/
theorem c9_pipeline_failure_yields_500 {α : Type} (env : SearchEnv α) (d : String)
    (e : JsError) (hd : d ≠ "") (_hfail : (queryCodes env d 10).1 = .error e) :
    (getMedicalCodesHandler env (some d)).1
      = .ok (.json 500 (.jobj [("error", .jstr "Failed to retrieve medical codes")])) := by
  rw [getMedicalCodesHandler_some env d hd]

/-- Witness for C9: the concrete pipeline failure of the shipped code. -/
theorem c9_pipeline_failure_yields_500_witness :
    (queryCodes searchEnvHappy "flu" 10).1 = .error (.referenceError "path")
    ∧ (getMedicalCodesHandler searchEnvHappy (some "flu")).1
        = .ok (.json 500 (.jobj [("error", .jstr "Failed to retrieve medical codes")])) :=
  ⟨by rw [queryCodes_referenceError],
   c9_pipeline_failure_yields_500 searchEnvHappy "flu" (.referenceError "path") (by decide)
     (by rw [queryCodes_referenceError])⟩

/-- Claim C4.  When the `POST /send_email` handler body does not throw
synchronously (the transport builds), the response is 200 with the success
message regardless of the asynchronous delivery outcome, and a delivery error
reaches only the callback's log — never the HTTP response. -/
theorem c4_send_email_always_200 (menv : MailEnv) (procEnv : ProcessEnv)
    (subject body to_email : Option String)
    (hsync : menv.createTransport procEnv.mailUsername procEnv.mailPassword = .ok ()) :
    (sendEmailHandler menv procEnv subject body to_email).1
      = .ok (.json 200 (.jobj [("message", .jstr "Email sent successfully!")]))
    ∧ (∀ err : String, menv.sendMailResult = .error err →
        (sendEmailHandler menv procEnv subject body to_email).2 = [err]) := by
  unfold sendEmailHandler sendSecureEmail
  dsimp only
  rw [hsync]
  dsimp only
  constructor
  · rfl
  · intro err herr
    rw [herr]

/-- Witness for C4: a transport that builds but whose delivery later fails. -/
theorem c4_send_email_always_200_witness :
    (sendEmailHandler mailEnvAsyncFail ⟨some "relay@example.com", some "app-pass"⟩
        (some "hello") (some "body") (some "patient@example.com")).1
      = .ok (.json 200 (.jobj [("message", .jstr "Email sent successfully!")]))
    ∧ (sendEmailHandler mailEnvAsyncFail ⟨some "relay@example.com", some "app-pass"⟩
        (some "hello") (some "body") (some "patient@example.com")).2
      = ["Invalid login: 535-5.7.8 Username and Password not accepted"] :=
  ⟨(c4_send_email_always_200 mailEnvAsyncFail ⟨some "relay@example.com", some "app-pass"⟩
      (some "hello") (some "body") (some "patient@example.com") rfl).1,
   (c4_send_email_always_200 mailEnvAsyncFail ⟨some "relay@example.com", some "app-pass"⟩
      (some "hello") (some "body") (some "patient@example.com") rfl).2
     "Invalid login: 535-5.7.8 Username and Password not accepted" rfl⟩

/-- Claim C2.  The `createSecret` adapter returns the created version on success
and `null` on any provider error, never raising to its caller; and whenever it
returns `null`, the `POST /storeCredentials` handler dereferences that `null`
(`response.name`), ending the request in an unhandled `TypeError` fault
instead of a guarded error response. -/
theorem c2_createSecret_null_contract (client : SecretProvider)
    (patient_id username password ehr_type : Option String) :
    (∃ r, (createSecret client patient_id username password ehr_type).1 = .ok r)
    ∧ (∀ s v, client.createSecret "projects/sinewave-mobile" patient_id = .ok s →
        client.addSecretVersion ("projects/sinewave-mobile/secrets/" ++ jsTemplate patient_id)
            (bufferFromUtf8 (jsonStringifyCreds username password ehr_type)) = .ok v →
        (createSecret client patient_id username password ehr_type).1 = .ok (some v))
    ∧ (∀ e, client.createSecret "projects/sinewave-mobile" patient_id = .error e →
        (createSecret client patient_id username password ehr_type).1 = .ok none)
    ∧ (∀ s e, client.createSecret "projects/sinewave-mobile" patient_id = .ok s →
        client.addSecretVersion ("projects/sinewave-mobile/secrets/" ++ jsTemplate patient_id)
            (bufferFromUtf8 (jsonStringifyCreds username password ehr_type)) = .error e →
        (createSecret client patient_id username password ehr_type).1 = .ok none)
    ∧ ((createSecret client patient_id username password ehr_type).1 = .ok none →
        (storeCredentialsHandler client ⟨username, password, ehr_type, patient_id⟩).1
          = .error (.typeError "Cannot read properties of null (reading 'name')")) := by
  refine ⟨?_, ?_, ?_, ?_, ?_⟩
  · rw [createSecret_eq]
    cases hcs : client.createSecret "projects/sinewave-mobile" patient_id with
    | error e => exact ⟨none, rfl⟩
    | ok s =>
      cases hav : client.addSecretVersion
          ("projects/sinewave-mobile/secrets/" ++ jsTemplate patient_id)
          (bufferFromUtf8 (jsonStringifyCreds username password ehr_type)) with
      | error e => exact ⟨none, rfl⟩
      | ok version => exact ⟨some version, rfl⟩
  · intro s v hcs hav
    rw [createSecret_eq, hcs, hav]
  · intro e hcs
    rw [createSecret_eq, hcs]
  · intro s e hcs hav
    rw [createSecret_eq, hcs, hav]
  · intro hnull
    unfold storeCredentialsHandler
    dsimp only
    rcases hq : createSecret client patient_id username password ehr_type with ⟨r, calls⟩
    rw [hq] at hnull
    dsimp only at hnull
    rw [hnull]

/-- Witness for C2: with a working provider the version is returned; with a
rejecting provider the adapter yields `null` and the handler faults. -/
theorem c2_createSecret_null_contract_witness :
    (createSecret secretProviderOk (some "patient-7") (some "alice") (some "pa$$w0rd")
        (some "epic")).1
      = .ok (some ⟨"projects/sinewave-mobile/secrets/patient-7/versions/1"⟩)
    ∧ (createSecret secretProviderDown (some "patient-7") (some "alice") (some "pa$$w0rd")
        (some "epic")).1 = .ok none
    ∧ (storeCredentialsHandler secretProviderDown aliceStoreBody).1
      = .error (.typeError "Cannot read properties of null (reading 'name')") :=
  ⟨(c2_createSecret_null_contract secretProviderOk (some "patient-7") (some "alice")
      (some "pa$$w0rd") (some "epic")).2.1
     ⟨"projects/sinewave-mobile/secrets/patient-7"⟩
     ⟨"projects/sinewave-mobile/secrets/patient-7/versions/1"⟩ rfl rfl,
   (c2_createSecret_null_contract secretProviderDown (some "patient-7") (some "alice")
      (some "pa$$w0rd") (some "epic")).2.2.1 (.providerError "14 UNAVAILABLE") rfl,
   (c2_createSecret_null_contract secretProviderDown (some "patient-7") (some "alice")
      (some "pa$$w0rd") (some "epic")).2.2.2.2
     ((c2_createSecret_null_contract secretProviderDown (some "patient-7") (some "alice")
        (some "pa$$w0rd") (some "epic")).2.2.1 (.providerError "14 UNAVAILABLE") rfl)⟩

/-- Claim C10, refuted as stated.  A `POST /storeCredentials` request with every
required field missing is *not* answered with a client error before a provider
call: the handler does call the provider, and it produces no `.ok` response at
all (the request ends in an unhandled fault). -/
theorem c10_validation_counterexample :
    (storeCredentialsHandler secretProviderDown emptyStoreBody).2 ≠ []
    ∧ ∀ r, (storeCredentialsHandler secretProviderDown emptyStoreBody).1 ≠ .ok r := by
  have h : storeCredentialsHandler secretProviderDown emptyStoreBody
      = (.error (.typeError "Cannot read properties of null (reading 'name')"),
         [.secretCreate "projects/sinewave-mobile" none]) := rfl
  constructor
  · rw [h]
    exact List.cons_ne_nil _ _
  · intro r hr
    rw [h] at hr
    exact Except.noConfusion hr

/-- Claim C10 as amended.  The `POST /storeCredentials` handler performs no
presence check at all: every request — whatever fields are missing — triggers
a `createSecret` provider call as its first external action, and the handler
never produces a client-error response (any `.ok` JSON response it produces
has status 200). -/
theorem c10_storeCredentials_no_validation (client : SecretProvider) (body : StoreBody) :
    (∃ rest, (storeCredentialsHandler client body).2
        = .secretCreate "projects/sinewave-mobile" body.patient_id :: rest)
    ∧ (∀ st v, (storeCredentialsHandler client body).1 = .ok (.json st v) → st = 200) := by
  unfold storeCredentialsHandler
  rw [createSecret_eq]
  cases hcs : client.createSecret "projects/sinewave-mobile" body.patient_id with
  | error e =>
    dsimp only
    exact ⟨⟨[], rfl⟩, fun st v h => Except.noConfusion h⟩
  | ok s =>
    cases hav : client.addSecretVersion
        ("projects/sinewave-mobile/secrets/" ++ jsTemplate body.patient_id)
        (bufferFromUtf8 (jsonStringifyCreds body.username body.password body.ehr_type)) with
    | error e =>
      dsimp only
      exact ⟨⟨[.secretAddVersion ("projects/sinewave-mobile/secrets/" ++ jsTemplate body.patient_id)
          (bufferFromUtf8 (jsonStringifyCreds body.username body.password body.ehr_type))], rfl⟩,
        fun st v h => Except.noConfusion h⟩
    | ok version =>
      dsimp only
      refine ⟨⟨[.secretAddVersion ("projects/sinewave-mobile/secrets/" ++ jsTemplate body.patient_id)
          (bufferFromUtf8 (jsonStringifyCreds body.username body.password body.ehr_type))], rfl⟩,
        fun st v h => ?_⟩
      injection h with h1
      injection h1 with hst hv
      exact hst.symm

/-- Witness for C10 (amended): the empty request reaches the provider; a fully
populated request against a working provider answers 200. -/
theorem c10_storeCredentials_no_validation_witness :
    (∃ rest, (storeCredentialsHandler secretProviderDown emptyStoreBody).2
        = .secretCreate "projects/sinewave-mobile" none :: rest)
    ∧ 200 = 200 :=
  ⟨(c10_storeCredentials_no_validation secretProviderDown emptyStoreBody).1,
   ((c10_storeCredentials_no_validation secretProviderOk aliceStoreBody).2 200
     (.jobj [("status", .jstr "success"),
             ("secret_version_id",
              .jstr "projects/sinewave-mobile/secrets/patient-7/versions/1")]) rfl).symm⟩

/-- The full case analysis of `GET /getCredentials` on a non-empty
`patient_id`: provider failure and parse failure give 404; a parsed payload is
put through the JS truthiness test `if (credentials)` — truthy gives 200 with
the parsed value, falsy gives 404. -/
theorem getCredentialsHandler_cases (client : SecretProvider) (pid : String) (hpid : pid ≠ "") :
    (getCredentialsHandler client (some pid)).1
      = match client.accessSecretVersion
            ("projects/sinewave-mobile/secrets/" ++ pid ++ "/versions/latest") with
        | .error _ => .ok (.json 404 (.jobj [("message", .jstr "Failed to fetch credentials")]))
        | .ok payloadBytes =>
          match jsonParse (bufToStringUtf8 payloadBytes) with
          | none => .ok (.json 404 (.jobj [("message", .jstr "Failed to fetch credentials")]))
          | some credentials =>
            if jsTruthy credentials then .ok (.json 200 credentials)
            else .ok (.json 404 (.jobj [("message", .jstr "Failed to fetch credentials")])) := by
  rw [getCredentialsHandler_some client pid hpid, fetchCredentials_eq]
  cases hacc : client.accessSecretVersion
      ("projects/sinewave-mobile/secrets/" ++ pid ++ "/versions/latest") with
  | error e =>
    dsimp only
    rw [if_neg (by decide)]
  | ok payloadBytes =>
    dsimp only
    cases hj : jsonParse (bufToStringUtf8 payloadBytes) with
    | none =>
      dsimp only
      rw [if_neg (by decide)]
    | some credentials =>
      dsimp only [jsTruthyOpt, Option.getD]

/-- Claim C6, refuted as stated.  A provider whose stored payload is the five
UTF-8 bytes of `false`: the fetch succeeds — `fetchCredentials` returns the
parsed value `false`, not `null` — yet the handler answers 404, not 200 with
the parsed JSON, because `if (credentials)` treats the parsed value as falsy. -/
theorem c6_falsy_payload_counterexample :
    (fetchCredentials secretProviderFalse "patient-7").1 = .ok (some (.jbool false))
    ∧ (getCredentialsHandler secretProviderFalse (some "patient-7")).1
        = .ok (.json 404 (.jobj [("message", .jstr "Failed to fetch credentials")]))
    ∧ ∀ v, (getCredentialsHandler secretProviderFalse (some "patient-7")).1
        ≠ .ok (.json 200 v) := by
  have hparse : jsonParse (bufToStringUtf8 (bufferFromUtf8 "false")) = some (.jbool false) := by
    rw [bufToStringUtf8_bufferFromUtf8]
    rfl
  have hfetch : (fetchCredentials secretProviderFalse "patient-7").1
      = .ok (some (.jbool false)) := by
    rw [fetchCredentials_eq]
    dsimp only [secretProviderFalse]
    rw [hparse]
  have hhandler : (getCredentialsHandler secretProviderFalse (some "patient-7")).1
      = .ok (.json 404 (.jobj [("message", .jstr "Failed to fetch credentials")])) := by
    rw [getCredentialsHandler_cases secretProviderFalse "patient-7" (by decide)]
    dsimp only [secretProviderFalse]
    rw [hparse]
    rfl
  refine ⟨hfetch, hhandler, fun v h => ?_⟩
  rw [hhandler] at h
  injection h with h1
  injection h1 with hst hv
  exact absurd hst (by decide)

/-- Claim C6 as amended.  On a `GET /getCredentials` request with a non-empty
`patient_id`, no exception escapes the handler (it always produces an `.ok`
response); a provider failure — and equally a payload that fails to parse —
yields the 404 failure message; and a successfully fetched payload answers 200
with the parsed JSON exactly when the parsed value is truthy, a falsy parsed
value (such as `false`, `null` or `0`) being treated as a failed fetch and
answered 404. -/
theorem c6_getCredentials_fetch_contract (client : SecretProvider) (pid : String)
    (hpid : pid ≠ "") :
    (∃ r, (getCredentialsHandler client (some pid)).1 = .ok r)
    ∧ (∀ e, client.accessSecretVersion
          ("projects/sinewave-mobile/secrets/" ++ pid ++ "/versions/latest") = .error e →
        (getCredentialsHandler client (some pid)).1
          = .ok (.json 404 (.jobj [("message", .jstr "Failed to fetch credentials")])))
    ∧ (∀ payloadBytes, client.accessSecretVersion
          ("projects/sinewave-mobile/secrets/" ++ pid ++ "/versions/latest") = .ok payloadBytes →
        match jsonParse (bufToStringUtf8 payloadBytes) with
        | none => (getCredentialsHandler client (some pid)).1
            = .ok (.json 404 (.jobj [("message", .jstr "Failed to fetch credentials")]))
        | some credentials =>
          if jsTruthy credentials then
            (getCredentialsHandler client (some pid)).1 = .ok (.json 200 credentials)
          else
            (getCredentialsHandler client (some pid)).1
              = .ok (.json 404 (.jobj [("message", .jstr "Failed to fetch credentials")]))) := by
  have hc := getCredentialsHandler_cases client pid hpid
  refine ⟨?_, ?_, ?_⟩
  · rw [hc]
    cases client.accessSecretVersion
        ("projects/sinewave-mobile/secrets/" ++ pid ++ "/versions/latest") with
    | error e => exact ⟨_, rfl⟩
    | ok payloadBytes =>
      dsimp only
      cases jsonParse (bufToStringUtf8 payloadBytes) with
      | none => exact ⟨_, rfl⟩
      | some credentials =>
        dsimp only
        by_cases ht : jsTruthy credentials = true
        · rw [if_pos ht]
          exact ⟨_, rfl⟩
        · rw [if_neg ht]
          exact ⟨_, rfl⟩
  · intro e he
    rw [hc, he]
  · intro payloadBytes hb
    rw [hc, hb]
    dsimp only
    cases hj : jsonParse (bufToStringUtf8 payloadBytes) with
    | none => dsimp only
    | some credentials =>
      dsimp only
      by_cases ht : jsTruthy credentials = true
      · rw [if_pos ht, if_pos ht]
      · rw [if_neg ht, if_neg ht]

/-- Witness for C6 (amended): a rejecting provider answers 404; a provider
with a well-formed falsy payload still answers some `.ok` response. -/
theorem c6_getCredentials_fetch_contract_witness :
    (getCredentialsHandler secretProviderDown (some "patient-7")).1
      = .ok (.json 404 (.jobj [("message", .jstr "Failed to fetch credentials")]))
    ∧ ∃ r, (getCredentialsHandler secretProviderFalse (some "patient-7")).1 = .ok r :=
  ⟨(c6_getCredentials_fetch_contract secretProviderDown "patient-7" (by decide)).2.1
     (.providerError "14 UNAVAILABLE") rfl,
   (c6_getCredentials_fetch_contract secretProviderFalse "patient-7" (by decide)).1⟩

/-- Claim C5.  If `createSecret` succeeds for a patient, the version it wrote
holds exactly the UTF-8 bytes of `JSON.stringify({username, password,
ehr_type})` (visible in its call trace), and a `fetchCredentials` whose
provider hands back those same bytes returns the parsed credential object
equal to the original record — the blob round-trips through JSON
serialization, UTF-8 encoding, storage, UTF-8 decoding and JSON parsing. -/
theorem c5_credentials_roundtrip (client : SecretProvider)
    (username password ehr_type patient_id : String) (v : SecretVersion)
    (hcreate : (createSecret client (some patient_id) (some username) (some password)
        (some ehr_type)).1 = .ok (some v))
    (hread : client.accessSecretVersion
          ("projects/sinewave-mobile/secrets/" ++ patient_id ++ "/versions/latest")
        = .ok (bufferFromUtf8
            (jsonStringifyCreds (some username) (some password) (some ehr_type)))) :
    (createSecret client (some patient_id) (some username) (some password) (some ehr_type)).2
        = [.secretCreate "projects/sinewave-mobile" (some patient_id),
           .secretAddVersion ("projects/sinewave-mobile/secrets/" ++ patient_id)
             (bufferFromUtf8 (jsonStringifyCreds (some username) (some password) (some ehr_type)))]
    ∧ (fetchCredentials client patient_id).1
        = .ok (some (.jobj [("username", .jstr username), ("password", .jstr password),
                            ("ehr_type", .jstr ehr_type)])) := by
  constructor
  · rw [createSecret_eq] at hcreate ⊢
    cases hcs : client.createSecret "projects/sinewave-mobile" (some patient_id) with
    | error e =>
      rw [hcs] at hcreate
      dsimp only at hcreate
      injection hcreate with h1
      exact Option.noConfusion h1
    | ok s =>
      cases hav : client.addSecretVersion
          ("projects/sinewave-mobile/secrets/" ++ jsTemplate (some patient_id))
          (bufferFromUtf8 (jsonStringifyCreds (some username) (some password) (some ehr_type))) with
      | error e =>
        rw [hcs, hav] at hcreate
        dsimp only at hcreate
        injection hcreate with h1
        exact Option.noConfusion h1
      | ok version =>
        dsimp only [jsTemplate]
  · rw [fetchCredentials_eq, hread]
    dsimp only
    rw [bufToStringUtf8_bufferFromUtf8, jsonParse_stringifyCreds]

/-- Witness for C5: the working provider stores and returns the sample blob. -/
theorem c5_credentials_roundtrip_witness :
    (createSecret secretProviderOk (some "patient-7") (some "alice") (some "pa$$w0rd")
        (some "epic")).2
      = [.secretCreate "projects/sinewave-mobile" (some "patient-7"),
         .secretAddVersion "projects/sinewave-mobile/secrets/patient-7"
           (bufferFromUtf8 (jsonStringifyCreds (some "alice") (some "pa$$w0rd") (some "epic")))]
    ∧ (fetchCredentials secretProviderOk "patient-7").1
      = .ok (some (.jobj [("username", .jstr "alice"), ("password", .jstr "pa$$w0rd"),
                          ("ehr_type", .jstr "epic")])) :=
  c5_credentials_roundtrip secretProviderOk "alice" "pa$$w0rd" "epic" "patient-7"
    ⟨"projects/sinewave-mobile/secrets/patient-7/versions/1"⟩ rfl rfl
